import Mathlib

/-!
Verification of the local logic of a Modal MCP server (`src/main.py`).

The program is a thin adapter exposing Modal sandbox operations as MCP
tools.  Its local logic — embedded below — consists of:

* deriving the remote mount path from a local directory via
  `os.path.basename` (`modal_create_sandbox`, lines 79–87);
* reading the user's SSH public key from a fixed path and propagating a
  missing-file error (lines 59–63);
* shaping the create/restore results: sandbox id, port→URL tunnel map
  with the SSH tunnel (port 22) popped out, SSH host/port (lines 101–129);
* the optional filesystem snapshot after `modal_exec_in_sandbox`
  (lines 188–197);
* the in-process background-process registry `executing_processes`, a
  Python dict from a locally minted integer id (`len(dict) + 1`) to an
  in-flight execution handle, consumed by `dict.pop` in
  `modal_wait_for_process` (lines 199–247).

Remote Modal-platform behaviour (sandbox creation, command execution,
snapshotting) is abstracted into an environment `Env σ` of functions
over an opaque remote state `σ`; the local code never inspects remote
values, only threads them through, so every claim about the local logic
is stated for an arbitrary such environment.
-/

namespace ModalMCP

/-- Characters after the last `'/'` of a character list (accumulator is
reset every time a slash is seen). -/
def basenameAux : List Char → List Char → List Char
  | acc, [] => acc
  | acc, c :: rest =>
    if c = '/' then basenameAux [] rest else basenameAux (acc ++ [c]) rest

/-- Python `os.path.basename` for POSIX paths: everything after the last
slash (`p[p.rfind(sep) + 1:]`).  `basename "/" = ""`, `basename "a/b" = "b"`,
`basename "a/" = ""`. -/
def basename (p : String) : String :=
  String.mk (basenameAux [] p.data)

/-- Python whitespace as recognised by `str.strip()`. -/
def pyIsSpace (c : Char) : Bool :=
  c = ' ' || c = '\t' || c = '\n' || c = '\r' || c = '\x0b' || c = '\x0c'

/-- Python `str.strip()`: remove leading and trailing whitespace. -/
def pyStrip (s : String) : String :=
  String.mk (((s.data.dropWhile pyIsSpace).reverse.dropWhile pyIsSpace).reverse)

/-- Whether a path string starts with `'/'` (Python `b.startswith(sep)`
for the single-character POSIX separator). -/
def headIsSlash (b : String) : Bool :=
  match b.data with
  | [] => false
  | c :: _ => c = '/'

/-- Whether a path string ends with `'/'` (Python `a.endswith(sep)`). -/
def lastIsSlash (a : String) : Bool :=
  match a.data.getLast? with
  | some c => c = '/'
  | none => false

/-- Python `posixpath.join` for two components: if `b` is absolute it
replaces `a`; otherwise a slash is inserted unless `a` is empty or already
ends with one. -/
def ospath_join2 (a b : String) : String :=
  if headIsSlash b then b
  else if a.data.isEmpty || lastIsSlash a then a ++ b
  else a ++ "/" ++ b

/-- The fixed path the server reads the SSH public key from:
`os.path.join(home_dir, ".ssh", "id_ed25519.pub")` (main.py line 60). -/
def sshKeyPath (home_dir : String) : String :=
  ospath_join2 (ospath_join2 home_dir ".ssh") "id_ed25519.pub"

/-- A tunnel object as returned by `sb.tunnels()`: URL plus unencrypted
host/port (used for the SSH tunnel on port 22). -/
structure Tunnel where
  url : String
  unencrypted_host : String
  unencrypted_port : Nat
deriving DecidableEq

/-- The observable outcome of an in-flight execution handle `p` (a Modal
container process): `p.returncode`, `p.stdout.read()`, `p.stderr.read()`
once `p.wait()` has returned. -/
structure ProcHandle where
  returncode : Int
  stdout : String
  stderr : String
deriving DecidableEq

/-- The image argument passed to `Sandbox.create`: either the locally
built debian-slim image with SSH configured and the given public key
appended to `authorized_keys` (main.py lines 65–76), or an image resolved
from a snapshot id via `Image.from_id` (line 122). -/
inductive ImageSpec where
  | built (public_key : String)
  | fromSnapshot (image_id : String)
deriving DecidableEq

/-- The full argument record handed to `Sandbox.create`. -/
structure SandboxCreateArgs where
  entrypoint : List String
  image : ImageSpec
  gpu : Option String
  mounts : List (String × String)
  encrypted_ports : List Nat
  unencrypted_ports : List Nat
  timeout : Nat
deriving DecidableEq

/-- Errors the local code can raise: `FileNotFoundError` from `open` on
the SSH key path, `KeyError` from `tunnels[22]` / `executing_processes.pop`,
and a failed `Sandbox.from_id` lookup propagated from the platform. -/
inductive Err where
  | fileNotFound (path : String)
  | keyError (k : Nat)
  | sandboxNotFound (id : String)
deriving DecidableEq

/-- The external Modal platform, abstracted: an opaque remote state `σ`
threaded through the SDK calls the handlers make.  `fs` is the local
filesystem (`open` on a path yields its contents or fails);
`create` is `Sandbox.create` + `sb.tunnels()`, returning the new sandbox's
object id and its tunnel dict; `validSandbox` is whether
`Sandbox.from_id(id)` succeeds; `exec` is `sb.exec(*command)` together with
the eventual result of the spawned process; `snapshotFilesystem` is
`sb.snapshot_filesystem().object_id`. -/
structure Env (σ : Type) where
  home_dir : String
  fs : String → Option String
  create : σ → SandboxCreateArgs → (String × List (Nat × Tunnel)) × σ
  validSandbox : String → Bool
  exec : σ → String → List String → ProcHandle × σ
  snapshotFilesystem : σ → String → String × σ

/-! ### Python dict model

`executing_processes` is a Python dict with `int` keys.  We model it as an
insertion-ordered association list with unique keys: assignment overwrites
in place or appends, `pop` removes the binding or raises `KeyError`. -/

/-- The registry `executing_processes`: insertion-ordered id → handle map. -/
abbrev Registry := List (Nat × ProcHandle)

/-- The keys of a registry, in insertion order. -/
def dictKeys (d : Registry) : List Nat := d.map Prod.fst

/-- Dict lookup `d[k]` (first matching binding; keys are unique). -/
def dictLookup : Registry → Nat → Option ProcHandle
  | [], _ => none
  | kv :: rest, k => if kv.1 = k then some kv.2 else dictLookup rest k

/-- Dict assignment `d[k] = v`: overwrite in place if the key is present,
append otherwise. -/
def dictInsert (d : Registry) (k : Nat) (v : ProcHandle) : Registry :=
  if k ∈ dictKeys d then d.map fun kv => if kv.1 = k then (k, v) else kv
  else d ++ [(k, v)]

/-- Dict removal `d.pop(k)`: the bound value and the remaining dict, or
`none` (Python raises `KeyError`) when the key is absent. -/
def dictPop (d : Registry) (k : Nat) : Option (ProcHandle × Registry) :=
  match dictLookup d k with
  | some v => some (v, d.filter fun kv => kv.1 ≠ k)
  | none => none

/-! ### The tool handlers -/

/-- The mounts list built by `modal_create_sandbox` (main.py lines 79–87):
empty unless a mount dir is given (Python truthiness: `None` and `""` both
skip), else one mount of the local dir at `/root/<basename(mount_dir)>`. -/
def mountsFor (mount_dir : Option String) : List (String × String) :=
  match mount_dir with
  | none => []
  | some d => if d.data.isEmpty then [] else [(d, "/root/" ++ basename d)]

/-- The argument record `modal_create_sandbox` passes to `Sandbox.create`
(main.py lines 89–100). -/
def createSandboxArgs (public_key : String) (mount_dir : Option String)
    (gpu : Option String) (timeout : Nat) : SandboxCreateArgs :=
  { entrypoint := ["/usr/sbin/sshd", "-D", "-e", "-p", "22"]
    image := .built public_key
    gpu := gpu
    mounts := mountsFor mount_dir
    encrypted_ports := [8000, 8001, 8002]
    unencrypted_ports := [22]
    timeout := timeout }

/-- Dict lookup `tunnels[k]` on the tunnel dict returned by `sb.tunnels()`. -/
def dictFindTunnel : List (Nat × Tunnel) → Nat → Option Tunnel
  | [], _ => none
  | kv :: rest, k => if kv.1 = k then some kv.2 else dictFindTunnel rest k

/-- The dict returned by `modal_create_sandbox` (main.py lines 107–112). -/
structure CreateSandboxResult where
  sandbox_id : String
  tunnels : List (Nat × String)
  ssh_host : String
  ssh_port : Nat
deriving DecidableEq

/-- `modal_create_sandbox(timeout=1200, mount_dir=None, gpu=None)`
(main.py lines 52–112).  Reads the SSH public key (propagating a missing
file as an error), builds the image and mounts, creates the sandbox, reads
the SSH tunnel out of `tunnels[22]` (a `KeyError` if absent), pops it, and
returns the result dict.  Python defaults: `timeout = 60 * 20`,
`mount_dir = None`, `gpu = None`. -/
def modal_create_sandbox {σ : Type} (env : Env σ) (s : σ) (timeout : Nat)
    (mount_dir : Option String) (gpu : Option String) :
    Except Err (CreateSandboxResult × σ) :=
  match env.fs (sshKeyPath env.home_dir) with
  | none => .error (.fileNotFound (sshKeyPath env.home_dir))
  | some contents =>
    let public_key := pyStrip contents
    let created := env.create s (createSandboxArgs public_key mount_dir gpu timeout)
    let sandbox_id := created.1.1
    let tunnels := created.1.2
    match dictFindTunnel tunnels 22 with
    | none => .error (.keyError 22)
    | some ssh_tunnel =>
      .ok ({ sandbox_id := sandbox_id
             tunnels := (tunnels.filter fun kv => kv.1 ≠ 22).map fun kv => (kv.1, kv.2.url)
             ssh_host := ssh_tunnel.unencrypted_host
             ssh_port := ssh_tunnel.unencrypted_port }, created.2)

/-- The argument record `modal_restore_sandbox` passes to `Sandbox.create`
(main.py lines 121–123): image resolved from the snapshot id, encrypted
ports 8000–8002, timeout `60 * 4` seconds, everything else at the SDK
defaults (no entrypoint, no gpu, no mounts, no unencrypted ports). -/
def restoreSandboxArgs (image_id : String) : SandboxCreateArgs :=
  { entrypoint := []
    image := .fromSnapshot image_id
    gpu := none
    mounts := []
    encrypted_ports := [8000, 8001, 8002]
    unencrypted_ports := []
    timeout := 60 * 4 }

/-- The dict returned by `modal_restore_sandbox` (main.py lines 125–129). -/
structure RestoreSandboxResult where
  sandbox_id : String
  tunnels : List (Nat × String)
  image_id : String
deriving DecidableEq

/-- `modal_restore_sandbox(image_id)` (main.py lines 118–129): creates a
sandbox from the snapshot image and returns its id, the port→URL map of
all its tunnels, and the snapshot id echoed back. -/
def modal_restore_sandbox {σ : Type} (env : Env σ) (s : σ) (image_id : String) :
    RestoreSandboxResult × σ :=
  let created := env.create s (restoreSandboxArgs image_id)
  ({ sandbox_id := created.1.1
     tunnels := created.1.2.map fun kv => (kv.1, kv.2.url)
     image_id := image_id }, created.2)

/-- `modal_exec_in_sandbox(sandbox_id, command, save_image_after_exec)`
(main.py lines 175–197): resolves the sandbox, execs the command and waits
for it, optionally snapshots the filesystem afterwards, and returns
`(returncode, stdout, stderr, image_id)` with `image_id = None` when the
snapshot flag is false.  Python default: `save_image_after_exec = True`. -/
def modal_exec_in_sandbox {σ : Type} (env : Env σ) (s : σ) (sandbox_id : String)
    (command : List String) (save_image_after_exec : Bool) :
    Except Err ((Int × String × String × Option String) × σ) :=
  if env.validSandbox sandbox_id then
    let ps := env.exec s sandbox_id command
    if save_image_after_exec then
      let snap := env.snapshotFilesystem ps.2 sandbox_id
      .ok ((ps.1.returncode, ps.1.stdout, ps.1.stderr, some snap.1), snap.2)
    else
      .ok ((ps.1.returncode, ps.1.stdout, ps.1.stderr, none), ps.2)
  else .error (.sandboxNotFound sandbox_id)

/-- `modal_exec_in_sandbox` called without the flag, i.e. at its Python
default `save_image_after_exec=True`. -/
def modal_exec_in_sandbox_default {σ : Type} (env : Env σ) (s : σ)
    (sandbox_id : String) (command : List String) :
    Except Err ((Int × String × String × Option String) × σ) :=
  modal_exec_in_sandbox env s sandbox_id command true

/-- `modal_exec_in_sandbox_background(sandbox_id, command)` (main.py lines
219–235): resolves the sandbox, execs the command without waiting, mints
`process_id = len(executing_processes) + 1`, stores the handle under it,
and returns the id together with the updated registry. -/
def modal_exec_in_sandbox_background {σ : Type} (env : Env σ) (s : σ)
    (st : Registry) (sandbox_id : String) (command : List String) :
    Except Err ((Nat × Registry) × σ) :=
  if env.validSandbox sandbox_id then
    let ps := env.exec s sandbox_id command
    let process_id := st.length + 1
    .ok ((process_id, dictInsert st process_id ps.1), ps.2)
  else .error (.sandboxNotFound sandbox_id)

/-- `modal_wait_for_process(sandbox_id, process_id)` (main.py lines
241–247): resolves the sandbox (its value is never used afterwards), pops
the handle out of `executing_processes` (a `KeyError` if absent — the
registry is then unchanged), waits on it and returns
`(returncode, stdout, stderr)` together with the updated registry. -/
def modal_wait_for_process {σ : Type} (env : Env σ) (s : σ) (st : Registry)
    (sandbox_id : String) (process_id : Nat) :
    Except Err (((Int × String × String) × Registry) × σ) :=
  if env.validSandbox sandbox_id then
    match dictPop st process_id with
    | some pr => .ok (((pr.1.returncode, pr.1.stdout, pr.1.stderr), pr.2), s)
    | none => .error (.keyError process_id)
  else .error (.sandboxNotFound sandbox_id)

/-! ### Interleaved call traces

For claims about sequences of background launches and waits, we run
sequences of tool calls against the shared registry, exactly as the MCP
server would dispatch them one after the other.  A failed call raises out
of that tool invocation; the server keeps running, so the trace continues
with the registry and remote state unchanged. -/

/-- One tool call touching the background-process registry. -/
inductive Call where
  | launch (sandbox_id : String) (command : List String)
  | wait (sandbox_id : String) (process_id : Nat)
deriving DecidableEq

/-- The caller-visible outcome of one such call. -/
inductive Ret where
  | launched (process_id : Nat)
  | waited (returncode : Int) (stdout : String) (stderr : String)
  | errored (e : Err)
deriving DecidableEq

/-- Dispatch one call against the remote state and the registry. -/
def step {σ : Type} (env : Env σ) (st : σ × Registry) (c : Call) :
    (σ × Registry) × Ret :=
  match c with
  | .launch sid cmd =>
    match modal_exec_in_sandbox_background env st.1 st.2 sid cmd with
    | .ok pr => ((pr.2, pr.1.2), .launched pr.1.1)
    | .error e => (st, .errored e)
  | .wait sid pid =>
    match modal_wait_for_process env st.1 st.2 sid pid with
    | .ok pr => ((pr.2, pr.1.2), .waited pr.1.1.1 pr.1.1.2.1 pr.1.1.2.2)
    | .error e => (st, .errored e)

/-- Run a sequence of calls, collecting the outcome of each. -/
def runTrace {σ : Type} (env : Env σ) : σ × Registry → List Call → (σ × Registry) × List Ret
  | st, [] => (st, [])
  | st, c :: cs =>
    ((runTrace env (step env st c).1 cs).1,
     (step env st c).2 :: (runTrace env (step env st c).1 cs).2)

/-! ### A concrete platform environment

Used to evaluate the handlers on concrete inputs (witnesses and
counterexamples).  The remote state is a counter; each exec returns a
handle whose exit code records which exec it was, so distinct launches
yield distinguishable handles. -/

/-- A concrete environment: remote state `Nat` counts platform calls, and
the `n`-th exec produces a handle with `returncode = n`. -/
def cEnv : Env Nat where
  home_dir := "/home/user"
  fs := fun p => if p = "/home/user/.ssh/id_ed25519.pub" then some "ssh-ed25519 AAAA user" else none
  create := fun s _ =>
    (("sb-001", [(22, ⟨"u22", "ssh.host", 40022⟩), (8000, ⟨"https://t8000", "h", 0⟩),
                 (8001, ⟨"https://t8001", "h", 0⟩), (8002, ⟨"https://t8002", "h", 0⟩)]), s + 1)
  validSandbox := fun sid => sid = "sb-001"
  exec := fun s _ _ => ({ returncode := s, stdout := "", stderr := "" }, s + 1)
  snapshotFilesystem := fun s _ => ("im-snap", s + 1)

/-- A variant of `cEnv` in which every sandbox id resolves, so that two
distinct sandbox ids can be passed to the same tool call. -/
def cEnvAll : Env Nat :=
  Env.mk cEnv.home_dir cEnv.fs cEnv.create (fun _ => true) cEnv.exec cEnv.snapshotFilesystem

/-! ### Dict lemmas -/

/-- Assignment followed by lookup of the same key yields the assigned
value, whether the key was fresh or overwritten. -/
theorem dictLookup_insert_self (d : Registry) (k : Nat) (v : ProcHandle) :
    dictLookup (dictInsert d k v) k = some v := by
  by_cases h : k ∈ dictKeys d
  · simp only [dictInsert, if_pos h]
    induction d with
    | nil => simp [dictKeys] at h
    | cons kv rest ih =>
      by_cases hk : kv.1 = k
      · simp [dictLookup, hk]
      · simp only [List.map_cons, if_neg hk, dictLookup, hk, if_false]
        apply ih
        simp only [dictKeys, List.map_cons, List.mem_cons] at h
        rcases h with h | h
        · exact absurd h.symm hk
        · simpa [dictKeys] using h
  · simp only [dictInsert, if_neg h]
    induction d with
    | nil => simp [dictLookup]
    | cons kv rest ih =>
      have hk : kv.1 ≠ k := fun he => h (by simp [dictKeys, he])
      simp only [List.cons_append, dictLookup, hk, if_false]
      exact ih fun hm => h (by simp [dictKeys] at hm ⊢; exact Or.inr hm)

/-- After filtering out a key (what `pop` leaves behind), looking that key
up fails. -/
theorem dictLookup_filter_ne (d : Registry) (k : Nat) :
    dictLookup (d.filter fun kv => kv.1 ≠ k) k = none := by
  induction d with
  | nil => simp [dictLookup]
  | cons kv rest ih =>
    by_cases hk : kv.1 = k
    · simpa [List.filter_cons, hk] using ih
    · simpa [List.filter_cons, hk, dictLookup] using ih

/-- Assigning a fresh key appends the binding. -/
theorem dictInsert_of_not_mem (d : Registry) (k : Nat) (v : ProcHandle)
    (h : k ∉ dictKeys d) : dictInsert d k v = d ++ [(k, v)] := by
  simp [dictInsert, h]

/-- `dictPop` characterised: a successful pop returns the looked-up value
and leaves the dict filtered of that key. -/
theorem dictPop_eq_some (d : Registry) (k : Nat) (pr : ProcHandle × Registry)
    (h : dictPop d k = some pr) :
    dictLookup d k = some pr.1 ∧ pr.2 = d.filter fun kv => kv.1 ≠ k := by
  unfold dictPop at h
  cases hl : dictLookup d k with
  | none => rw [hl] at h; simp at h
  | some v =>
    rw [hl] at h
    simp only [Option.some.injEq] at h
    constructor
    · rw [← h]
    · rw [← h]

/-- A run of background launches (each against some valid sandbox) from a
registry whose keys are all bounded by its size returns the identifiers
`size+1, size+2, ...` in order. -/
theorem runTrace_launches {σ : Type} (env : Env σ) :
    ∀ (calls : List (String × List String)) (s : σ) (st : Registry),
      (∀ pr ∈ calls, env.validSandbox pr.1 = true) →
      (∀ k ∈ dictKeys st, k ≤ st.length) →
      (runTrace env (s, st) (calls.map fun pr => Call.launch pr.1 pr.2)).2 =
        (List.range' (st.length + 1) calls.length).map Ret.launched := by
  intro calls
  induction calls with
  | nil => intro s st _ _; simp [runTrace]
  | cons c cs ih =>
    intro s st hv h
    have hvc : env.validSandbox c.1 = true := hv c (List.mem_cons_self c cs)
    have hnot : (st.length + 1) ∉ dictKeys st := fun hm => by
      have := h _ hm; omega
    have hstep : step env (s, st) (Call.launch c.1 c.2) =
        (((env.exec s c.1 c.2).2, st ++ [(st.length + 1, (env.exec s c.1 c.2).1)]),
         Ret.launched (st.length + 1)) := by
      simp [step, modal_exec_in_sandbox_background, hvc, dictInsert_of_not_mem _ _ _ hnot]
    have hinv : ∀ k ∈ dictKeys (st ++ [(st.length + 1, (env.exec s c.1 c.2).1)]),
        k ≤ (st ++ [(st.length + 1, (env.exec s c.1 c.2).1)]).length := by
      intro k hk
      simp only [dictKeys, List.map_append, List.map_cons, List.map_nil,
        List.mem_append, List.mem_singleton, List.length_append, List.length_cons,
        List.length_nil] at hk ⊢
      rcases hk with hk | hk
      · have := h k hk
        omega
      · omega
    simp only [List.map_cons, runTrace, hstep]
    rw [ih (env.exec s c.1 c.2).2 (st ++ [(st.length + 1, (env.exec s c.1 c.2).1)])
        (fun pr hpr => hv pr (List.mem_cons_of_mem c hpr)) hinv]
    simp [List.range'_succ]

/-- C1: for every sequence of N consecutive `modal_exec_in_sandbox_background`
calls with no intervening `modal_wait_for_process` calls, starting from an
empty registry, the returned process identifiers are exactly the strictly
increasing sequence `1, 2, ..., N`, each unique. -/
theorem background_ids_sequential {σ : Type} (env : Env σ) (s : σ)
    (calls : List (String × List String))
    (hv : ∀ pr ∈ calls, env.validSandbox pr.1 = true) :
    (runTrace env (s, ([] : Registry)) (calls.map fun pr => Call.launch pr.1 pr.2)).2 =
      (List.range' 1 calls.length).map Ret.launched ∧
    (List.range' 1 calls.length).Pairwise (· < ·) := by
  refine ⟨?_, List.pairwise_lt_range' 1 calls.length 1 (by omega)⟩
  simpa using runTrace_launches env calls s [] hv (by simp [dictKeys])

/-- Witness for C1: two concrete launches from the empty registry return
ids 1 and 2. -/
theorem background_ids_sequential_witness :
    (∀ pr ∈ ([("sb-001", ["a"]), ("sb-001", ["b"])] : List (String × List String)),
      cEnv.validSandbox pr.1 = true) ∧
    ((runTrace cEnv (0, ([] : Registry))
        (([("sb-001", ["a"]), ("sb-001", ["b"])] : List (String × List String)).map
          fun pr => Call.launch pr.1 pr.2)).2 =
      (List.range' 1 ([("sb-001", ["a"]), ("sb-001", ["b"])] :
          List (String × List String)).length).map Ret.launched ∧
     (List.range' 1 ([("sb-001", ["a"]), ("sb-001", ["b"])] :
          List (String × List String)).length).Pairwise (· < ·)) :=
  ⟨by decide, background_ids_sequential cEnv 0 [("sb-001", ["a"]), ("sb-001", ["b"])] (by decide)⟩

/-- C2: the claim that a process identifier, once assigned, is never
assigned again by a later background launch is FALSIFIED by the code at a
concrete interleaving: launch, launch, wait(1), launch returns the
identifiers 1, 2, 2 — the third launch re-assigns identifier 2, because
`process_id = len(executing_processes) + 1` shrinks back after the wait
pops an entry.  This contradicts the tool docstring, which calls the
returned value "a unique id assigned by the MCP server". -/
theorem background_id_reused_after_wait :
    (runTrace cEnv (0, ([] : Registry))
        [.launch "sb-001" ["a"], .launch "sb-001" ["b"],
         .wait "sb-001" 1, .launch "sb-001" ["c"]]).2 =
      [.launched 1, .launched 2, .waited 0 "" "", .launched 2] := by decide

/-- C3 counterexample: waiting on an identifier already consumed by a
previous wait does NOT always fail.  In the trace launch, launch, wait(2),
launch, wait(2), the fourth call re-assigns the consumed identifier 2, and
the final wait(2) then succeeds — returning the third launch's handle
(exit code 2), not a failure, although identifier 2 had already been
consumed (its original handle had exit code 1). -/
theorem wait_consumed_id_succeeds_after_reissue :
    (runTrace cEnv (0, ([] : Registry))
        [.launch "sb-001" ["a"], .launch "sb-001" ["b"],
         .wait "sb-001" 2, .launch "sb-001" ["c"], .wait "sb-001" 2]).2 =
      [.launched 1, .launched 2, .waited 1 "" "", .launched 2, .waited 2 "" ""] := by decide

/-- C3 (amended): calling `modal_wait_for_process` with an identifier not
present in the registry fails with a `KeyError` (not-found) and returns no
handle's result; and a successful wait removes the entry, so an immediately
repeated wait on the same identifier — with no intervening background
launch that could re-issue it — fails with the same not-found condition. -/
theorem wait_not_found_and_consume {σ : Type} (env : Env σ) (s : σ) (st : Registry)
    (sid : String) (pid : Nat) (hv : env.validSandbox sid = true) :
    (dictLookup st pid = none →
      modal_wait_for_process env s st sid pid = .error (.keyError pid)) ∧
    (∀ r st2 s2, modal_wait_for_process env s st sid pid = .ok ((r, st2), s2) →
      modal_wait_for_process env s2 st2 sid pid = .error (.keyError pid)) := by
  constructor
  · intro habs
    simp [modal_wait_for_process, hv, dictPop, habs]
  · intro r st2 s2 hok
    simp only [modal_wait_for_process, hv, if_true] at hok
    cases hpop : dictPop st pid with
    | none => rw [hpop] at hok; simp at hok
    | some pr =>
      rw [hpop] at hok
      simp only [Except.ok.injEq, Prod.mk.injEq] at hok
      have hst2 : st2 = st.filter fun kv => kv.1 ≠ pid := by
        rw [← hok.1.2, (dictPop_eq_some st pid pr hpop).2]
      have hnone : dictPop st2 pid = none := by
        unfold dictPop
        rw [hst2, dictLookup_filter_ne]
      simp only [modal_wait_for_process, hv, if_true, hnone]

/-- Witness for amended C3: waiting on id 5 in an empty registry fails
with a not-found `KeyError`. -/
theorem wait_not_found_and_consume_witness :
    cEnv.validSandbox "sb-001" = true ∧
    modal_wait_for_process cEnv 0 ([] : Registry) "sb-001" 5 = .error (.keyError 5) :=
  ⟨by decide, (wait_not_found_and_consume cEnv 0 [] "sb-001" 5 (by decide)).1 rfl⟩

/-- C4: `modal_exec_in_sandbox` with `save_image_after_exec = false`
returns a null snapshot identifier; with it `true` (equal to calling it at
its Python default) it returns the non-null identifier of the filesystem
snapshot taken in the remote state reached after the command completes. -/
theorem exec_snapshot_flag {σ : Type} (env : Env σ) (s : σ) (sid : String)
    (cmd : List String) (hv : env.validSandbox sid = true) :
    modal_exec_in_sandbox env s sid cmd false =
      .ok (((env.exec s sid cmd).1.returncode, (env.exec s sid cmd).1.stdout,
            (env.exec s sid cmd).1.stderr, none), (env.exec s sid cmd).2) ∧
    modal_exec_in_sandbox env s sid cmd true =
      .ok (((env.exec s sid cmd).1.returncode, (env.exec s sid cmd).1.stdout,
            (env.exec s sid cmd).1.stderr,
            some (env.snapshotFilesystem (env.exec s sid cmd).2 sid).1),
           (env.snapshotFilesystem (env.exec s sid cmd).2 sid).2) ∧
    modal_exec_in_sandbox_default env s sid cmd = modal_exec_in_sandbox env s sid cmd true := by
  refine ⟨?_, ?_, rfl⟩ <;> simp [modal_exec_in_sandbox, hv]

/-- Witness for C4 at a concrete environment, sandbox and command. -/
theorem exec_snapshot_flag_witness :
    cEnv.validSandbox "sb-001" = true ∧
    (modal_exec_in_sandbox cEnv 0 "sb-001" ["ls"] false =
      .ok (((cEnv.exec 0 "sb-001" ["ls"]).1.returncode, (cEnv.exec 0 "sb-001" ["ls"]).1.stdout,
            (cEnv.exec 0 "sb-001" ["ls"]).1.stderr, none), (cEnv.exec 0 "sb-001" ["ls"]).2) ∧
     modal_exec_in_sandbox cEnv 0 "sb-001" ["ls"] true =
      .ok (((cEnv.exec 0 "sb-001" ["ls"]).1.returncode, (cEnv.exec 0 "sb-001" ["ls"]).1.stdout,
            (cEnv.exec 0 "sb-001" ["ls"]).1.stderr,
            some (cEnv.snapshotFilesystem (cEnv.exec 0 "sb-001" ["ls"]).2 "sb-001").1),
           (cEnv.snapshotFilesystem (cEnv.exec 0 "sb-001" ["ls"]).2 "sb-001").2) ∧
     modal_exec_in_sandbox_default cEnv 0 "sb-001" ["ls"] =
       modal_exec_in_sandbox cEnv 0 "sb-001" ["ls"] true) :=
  ⟨by decide, exec_snapshot_flag cEnv 0 "sb-001" ["ls"] (by decide)⟩

/-- C5: for `mount_dir = "/"` the last path component is empty, the remote
mount path deterministically degenerates to `/root/` — the root of the
sandbox's home directory — and `modal_create_sandbox` succeeds on this
input (given the SSH key file exists and the platform reports an SSH
tunnel, the only failure sources of the handler). -/
theorem create_mount_root_degenerate {σ : Type} (env : Env σ) (s : σ) (pk : String)
    (hkey : env.fs (sshKeyPath env.home_dir) = some pk)
    (htun : (dictFindTunnel
        (env.create s (createSandboxArgs (pyStrip pk) (some "/") none 1200)).1.2 22).isSome = true) :
    basename "/" = "" ∧
    mountsFor (some "/") = [("/", "/root/")] ∧
    ∃ r s1, modal_create_sandbox env s 1200 (some "/") none = .ok (r, s1) := by
  refine ⟨by decide, by decide, ?_⟩
  obtain ⟨t, ht⟩ := Option.isSome_iff_exists.mp htun
  refine ⟨{ sandbox_id := (env.create s (createSandboxArgs (pyStrip pk) (some "/") none 1200)).1.1
            tunnels := ((env.create s (createSandboxArgs (pyStrip pk) (some "/") none 1200)).1.2.filter
                fun kv => kv.1 ≠ 22).map fun kv => (kv.1, kv.2.url)
            ssh_host := t.unencrypted_host
            ssh_port := t.unencrypted_port },
          (env.create s (createSandboxArgs (pyStrip pk) (some "/") none 1200)).2, ?_⟩
  simp [modal_create_sandbox, hkey, ht]

/-- Witness for C5 at the concrete environment. -/
theorem create_mount_root_degenerate_witness :
    cEnv.fs (sshKeyPath cEnv.home_dir) = some "ssh-ed25519 AAAA user" ∧
    (dictFindTunnel
        (cEnv.create 0 (createSandboxArgs (pyStrip "ssh-ed25519 AAAA user") (some "/") none 1200)).1.2
        22).isSome = true ∧
    (basename "/" = "" ∧
     mountsFor (some "/") = [("/", "/root/")] ∧
     ∃ r s1, modal_create_sandbox cEnv 0 1200 (some "/") none = .ok (r, s1)) :=
  ⟨by decide, by decide,
   create_mount_root_degenerate cEnv 0 "ssh-ed25519 AAAA user" (by decide) (by decide)⟩

/-- C6: every successful `modal_create_sandbox` call returns the created
sandbox's identifier, a port→URL mapping containing no entry for the SSH
port 22 (exactly the platform's tunnel dict with port 22 popped out and
each tunnel replaced by its URL), and the SSH tunnel's host and port as
the separate fields `ssh_host` and `ssh_port`. -/
theorem create_result_shape {σ : Type} (env : Env σ) (s : σ) (timeout : Nat)
    (mount_dir gpu : Option String) (r : CreateSandboxResult) (s1 : σ)
    (h : modal_create_sandbox env s timeout mount_dir gpu = .ok (r, s1)) :
    (∀ p, p ∈ r.tunnels.map Prod.fst → p ≠ 22) ∧
    ∃ pk t,
      env.fs (sshKeyPath env.home_dir) = some pk ∧
      dictFindTunnel (env.create s (createSandboxArgs (pyStrip pk) mount_dir gpu timeout)).1.2 22
        = some t ∧
      r.sandbox_id = (env.create s (createSandboxArgs (pyStrip pk) mount_dir gpu timeout)).1.1 ∧
      r.tunnels = ((env.create s (createSandboxArgs (pyStrip pk) mount_dir gpu timeout)).1.2.filter
          fun kv => kv.1 ≠ 22).map (fun kv => (kv.1, kv.2.url)) ∧
      r.ssh_host = t.unencrypted_host ∧ r.ssh_port = t.unencrypted_port := by
  unfold modal_create_sandbox at h
  cases hfs : env.fs (sshKeyPath env.home_dir) with
  | none => rw [hfs] at h; simp at h
  | some pk =>
    rw [hfs] at h
    simp only at h
    cases ht : dictFindTunnel (env.create s (createSandboxArgs (pyStrip pk) mount_dir gpu timeout)).1.2 22 with
    | none => rw [ht] at h; simp at h
    | some t =>
      rw [ht] at h
      simp only [Except.ok.injEq, Prod.mk.injEq] at h
      have hr := h.1
      constructor
      · intro p hp
        rw [← hr] at hp
        rcases List.mem_map.mp hp with ⟨pr, hpr, hp1⟩
        rcases List.mem_map.mp hpr with ⟨kv, hkv, hpr2⟩
        have hne := (List.mem_filter.mp hkv).2
        rw [← hp1, ← hpr2]
        simpa using hne
      · exact ⟨pk, t, rfl, ht, by rw [← hr], by rw [← hr], by rw [← hr], by rw [← hr]⟩

/-- Witness for C6: a concrete successful creation whose result omits
port 22 from the tunnel map and reports the SSH endpoint separately. -/
theorem create_result_shape_witness :
    ∃ r s1, modal_create_sandbox cEnv 0 1200 none none = .ok (r, s1) ∧
      ((∀ p, p ∈ r.tunnels.map Prod.fst → p ≠ 22) ∧
       ∃ pk t,
        cEnv.fs (sshKeyPath cEnv.home_dir) = some pk ∧
        dictFindTunnel (cEnv.create 0 (createSandboxArgs (pyStrip pk) none none 1200)).1.2 22 = some t ∧
        r.sandbox_id = (cEnv.create 0 (createSandboxArgs (pyStrip pk) none none 1200)).1.1 ∧
        r.tunnels = ((cEnv.create 0 (createSandboxArgs (pyStrip pk) none none 1200)).1.2.filter
            fun kv => kv.1 ≠ 22).map (fun kv => (kv.1, kv.2.url)) ∧
        r.ssh_host = t.unencrypted_host ∧ r.ssh_port = t.unencrypted_port) :=
  ⟨{ sandbox_id := "sb-001"
     tunnels := [(8000, "https://t8000"), (8001, "https://t8001"), (8002, "https://t8002")]
     ssh_host := "ssh.host", ssh_port := 40022 }, 1, by rfl,
   create_result_shape cEnv 0 1200 none none _ 1 (by rfl)⟩

/-- C7: `modal_create_sandbox` reads the SSH public key from the fixed
conventional path `<home>/.ssh/id_ed25519.pub`, and when that file does
not exist the call fails with a propagated file-not-found error naming
that path, rather than continuing without the key. -/
theorem create_missing_ssh_key_error {σ : Type} (env : Env σ) (s : σ) (timeout : Nat)
    (mount_dir gpu : Option String)
    (h : env.fs (sshKeyPath env.home_dir) = none) :
    sshKeyPath "/home/user" = "/home/user/.ssh/id_ed25519.pub" ∧
    modal_create_sandbox env s timeout mount_dir gpu =
      .error (.fileNotFound (sshKeyPath env.home_dir)) := by
  refine ⟨by decide, ?_⟩
  simp [modal_create_sandbox, h]

/-- Witness for C7: an environment with an empty filesystem makes
`modal_create_sandbox` fail with the file-not-found error. -/
theorem create_missing_ssh_key_error_witness :
    (Env.mk "/home/user" (fun _ => none) cEnv.create cEnv.validSandbox cEnv.exec
        cEnv.snapshotFilesystem).fs
      (sshKeyPath "/home/user") = none ∧
    (sshKeyPath "/home/user" = "/home/user/.ssh/id_ed25519.pub" ∧
     modal_create_sandbox
        (Env.mk "/home/user" (fun _ => none) cEnv.create cEnv.validSandbox cEnv.exec
          cEnv.snapshotFilesystem) 0 1200 none none =
       .error (.fileNotFound (sshKeyPath "/home/user"))) :=
  ⟨rfl, create_missing_ssh_key_error
    (Env.mk "/home/user" (fun _ => none) cEnv.create cEnv.validSandbox cEnv.exec
      cEnv.snapshotFilesystem) 0 1200 none none rfl⟩

/-- C8: `modal_restore_sandbox` creates the new sandbox with a fixed
4-minute (240-second) timeout and an image resolved from the snapshot id,
and returns the new sandbox's identifier, the port→URL tunnel mapping, and
the snapshot identifier echoed back unchanged. -/
theorem restore_timeout_and_echo {σ : Type} (env : Env σ) (s : σ) (image_id : String) :
    (restoreSandboxArgs image_id).timeout = 4 * 60 ∧
    (restoreSandboxArgs image_id).image = ImageSpec.fromSnapshot image_id ∧
    modal_restore_sandbox env s image_id =
      ({ sandbox_id := (env.create s (restoreSandboxArgs image_id)).1.1
         tunnels := (env.create s (restoreSandboxArgs image_id)).1.2.map fun kv => (kv.1, kv.2.url)
         image_id := image_id }, (env.create s (restoreSandboxArgs image_id)).2) :=
  ⟨rfl, rfl, rfl⟩

/-- C9: a background launch stores its execution handle under the returned
process identifier, and an immediately following wait on that identifier
(with no intervening registry operation) retrieves exactly that stored
handle's result — `take` after `register` round-trips. -/
theorem register_take_roundtrip {σ : Type} (env : Env σ) (s : σ) (st : Registry)
    (sid : String) (cmd : List String) (hv : env.validSandbox sid = true) :
    ∃ pid st1 s1 st2,
      modal_exec_in_sandbox_background env s st sid cmd = .ok ((pid, st1), s1) ∧
      modal_wait_for_process env s1 st1 sid pid =
        .ok ((((env.exec s sid cmd).1.returncode, (env.exec s sid cmd).1.stdout,
               (env.exec s sid cmd).1.stderr), st2), s1) := by
  refine ⟨st.length + 1, dictInsert st (st.length + 1) (env.exec s sid cmd).1,
          (env.exec s sid cmd).2,
          (dictInsert st (st.length + 1) (env.exec s sid cmd).1).filter
            (fun kv => kv.1 ≠ st.length + 1), ?_, ?_⟩
  · simp [modal_exec_in_sandbox_background, hv]
  · simp [modal_wait_for_process, hv, dictPop, dictLookup_insert_self]

/-- Witness for C9 at a concrete environment and registry. -/
theorem register_take_roundtrip_witness :
    cEnv.validSandbox "sb-001" = true ∧
    ∃ pid st1 s1 st2,
      modal_exec_in_sandbox_background cEnv 7 ([] : Registry) "sb-001" ["x"] = .ok ((pid, st1), s1) ∧
      modal_wait_for_process cEnv s1 st1 "sb-001" pid =
        .ok ((((cEnv.exec 7 "sb-001" ["x"]).1.returncode, (cEnv.exec 7 "sb-001" ["x"]).1.stdout,
               (cEnv.exec 7 "sb-001" ["x"]).1.stderr), st2), s1) :=
  ⟨by decide, register_take_roundtrip cEnv 7 [] "sb-001" ["x"] (by decide)⟩

/-- C10: two runs of `modal_wait_for_process` on the same registry that
differ only in the sandbox id argument (both resolving) are equal: they
remove the same entry, leave the same final registry and remote state, and
return the same stored handle's result — the choice of handle and the
registry effect are independent of `sandbox_id`. -/
theorem wait_ignores_sandbox_id {σ : Type} (env : Env σ) (s : σ) (st : Registry)
    (pid : Nat) (sid1 sid2 : String)
    (h1 : env.validSandbox sid1 = true) (h2 : env.validSandbox sid2 = true) :
    modal_wait_for_process env s st sid1 pid = modal_wait_for_process env s st sid2 pid := by
  simp [modal_wait_for_process, h1, h2]

/-- Witness for C10: two different sandbox ids, same wait outcome. -/
theorem wait_ignores_sandbox_id_witness :
    cEnvAll.validSandbox "sb-A" = true ∧ cEnvAll.validSandbox "sb-B" = true ∧
    modal_wait_for_process cEnvAll 0 [(1, ⟨0, "hi", ""⟩)] "sb-A" 1 =
      modal_wait_for_process cEnvAll 0 [(1, ⟨0, "hi", ""⟩)] "sb-B" 1 :=
  ⟨rfl, rfl, wait_ignores_sandbox_id cEnvAll 0 [(1, ⟨0, "hi", ""⟩)] 1 "sb-A" "sb-B" rfl rfl⟩

end ModalMCP
